import Mathlib

/-!
Shallow embedding of the rtslam sensor core (sensorAbstract.cpp / sensorAbstract.hpp).

The repository sources under verification are the two sensorAbstract files.
Collaborator classes (Gaussian, MapObject, MapAbstract, the landmark
parametrization and the quaternion frame-composition tools) are not part of
the supplied sources; where a definition embeds one of those collaborators it
is modelled from the specification and carries a doc comment saying so.
Index sets (jblas ind_array) are modelled as ordered duplicate-free lists of
naturals, vectors as lists of rationals, matrices as lists of rows.
-/

/-- jmath ublasExtra ia_range(start, start+len): the contiguous index set
\x7bstart, start+1, ..., start+len-1\x7d. -/
def ia_range (start len : Nat) : List Nat :=
  (List.range len).map (fun i => start + i)

/-- Ordered insertion into an ascending list. -/
def iaInsert (x : Nat) : List Nat → List Nat
  | [] => [x]
  | y :: t => if x ≤ y then x :: y :: t else y :: iaInsert x t

/-- Ascending insertion sort of an index list. -/
def iaSort : List Nat → List Nat
  | [] => []
  | x :: t => iaInsert x (iaSort t)

/-- jmath ublasExtra ia_union: merge of two index sets, ascending and
duplicate-free. -/
def ia_union (a b : List Nat) : List Nat :=
  (iaSort (a ++ b)).dedup

/-- Storage mode of an estimation quantity (class Gaussian): LOCAL owns its
value, REMOTE is a view into the shared filter state. -/
inductive Storage where
  | LOCAL
  | REMOTE
deriving DecidableEq

/-- Modelled from the spec: the dual-mode estimation quantity of Section 4.2
(class Gaussian, gaussian.hpp is not among the supplied sources).  A LOCAL
quantity owns its own d-sized mean storage and its index array is the identity
view \x7b0..d-1\x7d of that local storage; a REMOTE quantity owns no storage and is
keyed by its index set into the shared arena mean vector. -/
structure Gaussian where
  storage : Storage
  size : Nat
  ia : List Nat
  xLocal : List ℚ
deriving DecidableEq

/-- Gaussian(size): LOCAL quantity of the given size, zero mean. -/
def Gaussian.ofSize (n : Nat) : Gaussian :=
  { storage := Storage.LOCAL, size := n, ia := ia_range 0 n, xLocal := List.replicate n 0 }

/-- Gaussian(x): LOCAL quantity with the given mean vector. -/
def Gaussian.ofMean (v : List ℚ) : Gaussian :=
  { storage := Storage.LOCAL, size := v.length, ia := ia_range 0 v.length, xLocal := v }

/-- Gaussian(state, ia): REMOTE view of the shared state at the given index
set. -/
def Gaussian.remote (ia : List Nat) : Gaussian :=
  { storage := Storage.REMOTE, size := ia.length, ia := ia, xLocal := [] }

/-- Gaussian::x(): the mean, read from local storage (LOCAL) or through the
index set out of the shared arena mean vector (REMOTE). -/
def Gaussian.x (g : Gaussian) (arena : List ℚ) : List ℚ :=
  match g.storage with
  | Storage.LOCAL => g.xLocal
  | Storage.REMOTE => g.ia.map (fun i => arena.getD i 0)

/-- Modelled from the spec: the parent robot (robotAbstract.hpp is not among
the supplied sources); only its identifier and its mapped pose are consumed by
the sensor code. -/
structure RobotAbstract where
  id : Nat
  pose : Gaussian
deriving DecidableEq

/-- Observation record; the sensor code consumes only its identifier
(observationAbstract.hpp is an external collaborator). -/
structure ObservationAbstract where
  id : Nat
deriving DecidableEq

/-- Landmark object as consumed by the sensor code: identifier, reserved
arena slice, and the landmark-to-map back link set by linkToMap. -/
structure Landmark where
  id : Nat
  ia : List Nat
  linkedMap : Bool
deriving DecidableEq

/-- std::map insert-or-assign as performed by operator[]=: replaces the entry
with the given key if present, otherwise adds one. -/
def mapInsert {α : Type} : List (Nat × α) → Nat → α → List (Nat × α)
  | [], k, v => [(k, v)]
  | (k', v') :: t, k, v => if k' = k then (k, v) :: t else (k', v') :: mapInsert t k v

/-- std::map lookup by key. -/
def mapLookup {α : Type} : List (Nat × α) → Nat → Option α
  | [], _ => none
  | (k', v') :: t, k => if k' = k then some v' else mapLookup t k

/-- Modelled from the spec: the owning map with its shared StateArena
(mapAbstract.hpp is not among the supplied sources).  The arena is a
contiguous buffer of maxSize cells of which the first used cells are
allocated; the map also owns the landmark id pool and the id-to-landmark
table. -/
structure MapAbstract where
  maxSize : Nat
  used : Nat
  lmkIdCounter : Nat
  landmarks : List (Nat × Landmark)
deriving DecidableEq

/-- Modelled from the spec: MapAbstract::unusedStates(n), true when n free
state cells exist in the arena. -/
def MapAbstract.unusedStates (m : MapAbstract) (n : Nat) : Bool :=
  decide (m.used + n ≤ m.maxSize)

/-- Modelled from the spec: landmarkIds.getId(), the next identifier from the
map's monotone landmark id pool. -/
def MapAbstract.getId (m : MapAbstract) : Nat × MapAbstract :=
  (m.lmkIdCounter + 1, { m with lmkIdCounter := m.lmkIdCounter + 1 })

/-- Modelled from the spec: MapAbstract::linkToLandmark, registering the
landmark in the map's id-to-landmark table. -/
def MapAbstract.linkToLandmark (m : MapAbstract) (lmk : Landmark) : MapAbstract :=
  { m with landmarks := mapInsert m.landmarks lmk.id lmk }

/-- Modelled from the spec: LandmarkAnchoredHomogeneousPoint::size(), the
fixed number of state cells one landmark instance of the configured
parametrization occupies (external collaborator contract). -/
def LandmarkAnchoredHomogeneousPoint.size : Nat := 7

/-- Modelled from the spec: the landmark constructor
LandmarkAnchoredHomogeneousPoint(map), a MapObject construction that reserves
a size()-cell slice of the arena (Section 4.3); id and links are assigned
afterwards by the caller. -/
def LandmarkAnchoredHomogeneousPoint.new (m : MapAbstract) : Landmark × MapAbstract :=
  ({ id := 0, ia := ia_range m.used LandmarkAnchoredHomogeneousPoint.size, linkedMap := false },
   { m with used := m.used + LandmarkAnchoredHomogeneousPoint.size })

/-- The sensor (class SensorAbstract, a MapObject): identity data, the
MapObject arena reservation (stateSize cells at stateIa), the back link to
the parent robot, the mounting pose, the global-pose index set ia_globalPose
and the id-keyed observation table. -/
structure SensorAbstract where
  id : Nat
  name : String
  categoryName : String
  type : String
  stateSize : Nat
  stateIa : List Nat
  robot : Option RobotAbstract
  pose : Gaussian
  ia_globalPose : List Nat
  observations : List (Nat × ObservationAbstract)
deriving DecidableEq

/-- SensorAbstract(): MapObject(0), pose(7), ia_globalPose(0) (empty
constructor, sensorAbstract.cpp lines 51-54). -/
def SensorAbstract.mkEmpty : SensorAbstract :=
  { id := 0, name := "", categoryName := "SENSOR", type := "", stateSize := 0, stateIa := [],
    robot := none, pose := Gaussian.ofSize 7, ia_globalPose := [], observations := [] }

/-- SensorAbstract(vec7): MapObject(0), pose(_pose), ia_globalPose(0) (local
mean-only constructor, sensorAbstract.cpp lines 61-64). -/
def SensorAbstract.mkMean (p : List ℚ) : SensorAbstract :=
  { id := 0, name := "", categoryName := "SENSOR", type := "", stateSize := 0, stateIa := [],
    robot := none, pose := Gaussian.ofMean p, ia_globalPose := [], observations := [] }

/-- SensorAbstract(Gaussian): MapObject(0), pose(_pose), ia_globalPose(0)
(local full-Gaussian constructor, sensorAbstract.cpp lines 70-73). -/
def SensorAbstract.mkGaussian (g : Gaussian) : SensorAbstract :=
  { id := 0, name := "", categoryName := "SENSOR", type := "", stateSize := 0, stateIa := [],
    robot := none, pose := g, ia_globalPose := [], observations := [] }

/-- SensorAbstract(RobotAbstract, inFilter): the selectable LOCAL or REMOTE
pose constructor (sensorAbstract.cpp lines 101-107).  When inFilter, the
MapObject base reserves 7 cells of the robot's slam map and the pose is the
REMOTE view of that slice; otherwise the base reserves nothing and the pose
is a LOCAL Gaussian(7).  In both branches ia_globalPose is initialized
exactly as the source writes it: ia_union(rob.pose.ia(), pose.ia()) when
inFilter, else pose.ia().  The slam map is passed explicitly (it is
rob.slamMap in the source) and returned updated. -/
def SensorAbstract.mkSelectable (rob : RobotAbstract) (slamMap : MapAbstract)
    (inFilter : Bool) : SensorAbstract × MapAbstract :=
  if inFilter then
    let slice := ia_range slamMap.used 7
    let pose := Gaussian.remote slice
    ({ id := 0, name := "", categoryName := "SENSOR", type := "", stateSize := 7,
       stateIa := slice, robot := none, pose := pose,
       ia_globalPose := ia_union rob.pose.ia pose.ia, observations := [] },
     { slamMap with used := slamMap.used + 7 })
  else
    let pose := Gaussian.ofSize 7
    ({ id := 0, name := "", categoryName := "SENSOR", type := "", stateSize := 0,
       stateIa := [], robot := none, pose := pose,
       ia_globalPose := pose.ia, observations := [] },
     slamMap)

/-- SensorAbstract::linkToObservation: observations[obs.id()] = obs
(sensorAbstract.cpp lines 154-156). -/
def SensorAbstract.linkToObservation (sen : SensorAbstract)
    (obs : ObservationAbstract) : SensorAbstract :=
  { sen with observations := mapInsert sen.observations obs.id obs }

/-- SensorAbstract::linkToRobot (sensorAbstract.cpp lines 158-160). -/
def SensorAbstract.linkToRobot (sen : SensorAbstract) (r : RobotAbstract) : SensorAbstract :=
  { sen with robot := some r }

/-- Observable processing events: the two console lines the processing cycle
emits, used to record the order of the two phases. -/
inductive Event where
  | explore (obsId : Nat)
  | addLmk (lmkId : Nat)
deriving DecidableEq

/-- SensorAbstract::observeKnownLmks (sensorAbstract.cpp lines 126-132):
iterate the observation table, emitting one exploring line per observation. -/
def SensorAbstract.observeKnownLmks (sen : SensorAbstract) : List Event :=
  sen.observations.map (fun p => Event.explore p.2.id)

/-- SensorAbstract::newLandmark (sensorAbstract.cpp lines 144-152): construct
the landmark (reserving its slice), draw the next id from the map's landmark
id pool, register it in the map's id-to-landmark table and link it back to
the map.  The registered landmark and the one linked to the map are the same
shared object, so the table records it with its final state. -/
def SensorAbstract.newLandmark (slamMap : MapAbstract) : Landmark × MapAbstract :=
  let r1 := LandmarkAnchoredHomogeneousPoint.new slamMap
  let r2 := MapAbstract.getId r1.2
  let lmk : Landmark := { r1.1 with id := r2.1, linkedMap := true }
  (lmk, MapAbstract.linkToLandmark r2.2 lmk)

/-- Modelled from the spec: MapAbstract::addObservations (mapAbstract.hpp is
not among the supplied sources), which creates the Observation that will
track the new landmark and links the sensor's observation table under the
landmark's id. -/
def MapAbstract.addObservations (sen : SensorAbstract) (lmk : Landmark) : SensorAbstract :=
  SensorAbstract.linkToObservation sen { id := lmk.id }

/-- Result of one discovery step or one full processRaw cycle. -/
structure ProcessResult where
  sen : SensorAbstract
  slamMap : MapAbstract
  newLmk : Option Landmark
  events : List Event
deriving DecidableEq

/-- SensorAbstract::discoverNewLmks (sensorAbstract.cpp lines 134-142): query
the map's free-state budget for one landmark of the configured
parametrization; if available, create exactly one landmark and register its
observation; otherwise do nothing. -/
def SensorAbstract.discoverNewLmks (sen : SensorAbstract) (slamMap : MapAbstract) : ProcessResult :=
  if MapAbstract.unusedStates slamMap LandmarkAnchoredHomogeneousPoint.size then
    let r := SensorAbstract.newLandmark slamMap
    { sen := MapAbstract.addObservations sen r.1,
      slamMap := r.2,
      newLmk := some r.1,
      events := [Event.addLmk r.1.id] }
  else
    { sen := sen, slamMap := slamMap, newLmk := none, events := [] }

/-- SensorAbstract::processRaw (sensorAbstract.cpp lines 121-124): first
observeKnownLmks, then discoverNewLmks. -/
def SensorAbstract.processRaw (sen : SensorAbstract) (slamMap : MapAbstract) : ProcessResult :=
  let r := SensorAbstract.discoverNewLmks sen slamMap
  { r with events := SensorAbstract.observeKnownLmks sen ++ r.events }

/-- Element read of a pose vector (jblas vector element access). -/
def vget (v : List ℚ) (i : Nat) : ℚ := v.getD i 0

/-- Modelled from the spec: quaternion::composeFrames(base, offset)
(quatTools.hpp is not among the supplied sources): the pure frame-composition
primitive of Section 6.  A pose vector is position (3) followed by a
real-first quaternion (4); the composed position is the base position plus
the base-rotated offset position, the composed orientation is the quaternion
product. -/
def composeFrames (bp op : List ℚ) : List ℚ :=
  let a := vget bp 3
  let b := vget bp 4
  let c := vget bp 5
  let d := vget bp 6
  let x1 := vget op 0
  let x2 := vget op 1
  let x3 := vget op 2
  let e := vget op 3
  let f := vget op 4
  let g := vget op 5
  let h := vget op 6
  [vget bp 0 + (a * a + b * b - c * c - d * d) * x1 + 2 * (b * c - a * d) * x2 + 2 * (b * d + a * c) * x3,
   vget bp 1 + 2 * (b * c + a * d) * x1 + (a * a - b * b + c * c - d * d) * x2 + 2 * (c * d - a * b) * x3,
   vget bp 2 + 2 * (b * d - a * c) * x1 + 2 * (c * d + a * b) * x2 + (a * a - b * b - c * c + d * d) * x3,
   a * e - b * f - c * g - d * h,
   a * f + b * e + c * h - d * g,
   a * g - b * h + c * e + d * f,
   a * h + b * g - c * f + d * e]

/-- Modelled from the spec: the 7-by-7 Jacobian of composeFrames with respect
to the base (robot) pose, as produced by quaternion::composeFrames_by_dglobal
and as the first Jacobian output of the five-argument
quaternion::composeFrames (both compute the same block, Section 6). -/
def composeFrames_dglobal (bp op : List ℚ) : List (List ℚ) :=
  let a := vget bp 3
  let b := vget bp 4
  let c := vget bp 5
  let d := vget bp 6
  let x1 := vget op 0
  let x2 := vget op 1
  let x3 := vget op 2
  let e := vget op 3
  let f := vget op 4
  let g := vget op 5
  let h := vget op 6
  [[1, 0, 0, 2 * (a * x1 - d * x2 + c * x3), 2 * (b * x1 + c * x2 + d * x3), 2 * (b * x2 + a * x3 - c * x1), 2 * (b * x3 - d * x1 - a * x2)],
   [0, 1, 0, 2 * (d * x1 + a * x2 - b * x3), 2 * (c * x1 - b * x2 - a * x3), 2 * (b * x1 + c * x2 + d * x3), 2 * (a * x1 - d * x2 + c * x3)],
   [0, 0, 1, 2 * (b * x2 + a * x3 - c * x1), 2 * (d * x1 + a * x2 - b * x3), 2 * (d * x2 - a * x1 - c * x3), 2 * (b * x1 + c * x2 + d * x3)],
   [0, 0, 0, e, -f, -g, -h],
   [0, 0, 0, f, e, h, -g],
   [0, 0, 0, g, -h, e, f],
   [0, 0, 0, h, g, -f, e]]

/-- Modelled from the spec: the 7-by-7 Jacobian of composeFrames with respect
to the offset (sensor) pose, the second Jacobian output of the five-argument
quaternion::composeFrames (Section 6). -/
def composeFrames_dlocal (bp op : List ℚ) : List (List ℚ) :=
  let a := vget bp 3
  let b := vget bp 4
  let c := vget bp 5
  let d := vget bp 6
  [[a * a + b * b - c * c - d * d, 2 * (b * c - a * d), 2 * (b * d + a * c), 0, 0, 0, 0],
   [2 * (b * c + a * d), a * a - b * b + c * c - d * d, 2 * (c * d - a * b), 0, 0, 0, 0],
   [2 * (b * d - a * c), 2 * (c * d + a * b), a * a - b * b - c * c + d * d, 0, 0, 0, 0],
   [0, 0, 0, a, -b, -c, -d],
   [0, 0, 0, b, a, -d, c],
   [0, 0, 0, c, d, a, -b],
   [0, 0, 0, d, -c, b, a]]

/-- The Jacobian output parameter SG_rs of globalPose: a single 7-by-7 block
when the sensor pose is LOCAL, a 7-by-14 block when it is REMOTE. -/
inductive JacOut where
  | lo (m : List (List ℚ))
  | re (m : List (List ℚ))
deriving DecidableEq

/-- Columns a..b-1 of a row-major matrix. -/
def takeCols (m : List (List ℚ)) (a b : Nat) : List (List ℚ) :=
  m.map (fun r => (r.drop a).take (b - a))

/-- SensorAbstract::globalPose (sensorAbstract.cpp lines 166-182): read the
robot pose mean and the sensor pose mean; if the sensor pose is LOCAL the
Jacobian output is the single 7-by-7 block with respect to the robot pose,
otherwise it is the 7-by-14 block whose columns 0-6 are PG_r and whose
columns 7-13 are PG_s.  The parent robot (sen.robot in the source) is passed
as the rob argument. -/
def SensorAbstract.globalPose (sen : SensorAbstract) (rob : RobotAbstract)
    (arena : List ℚ) : List ℚ × JacOut :=
  match sen.pose.storage with
  | Storage.LOCAL =>
      (composeFrames (rob.pose.x arena) (sen.pose.x arena),
       JacOut.lo (composeFrames_dglobal (rob.pose.x arena) (sen.pose.x arena)))
  | Storage.REMOTE =>
      (composeFrames (rob.pose.x arena) (sen.pose.x arena),
       JacOut.re (List.zipWith (fun u v => u ++ v)
         (composeFrames_dglobal (rob.pose.x arena) (sen.pose.x arena))
         (composeFrames_dlocal (rob.pose.x arena) (sen.pose.x arena))))

/-- One snapshot of the estimation state: the shared arena mean vector, the
robot and the sensor. -/
structure SlamState where
  arena : List ℚ
  rob : RobotAbstract
  sen : SensorAbstract
deriving DecidableEq

/-- globalPose as a state transformer over the snapshot, to express its frame
condition: the call returns its outputs next to the (unchanged) state. -/
def globalPoseS (st : SlamState) : SlamState × (List ℚ × JacOut) :=
  (st, SensorAbstract.globalPose st.sen st.rob st.arena)

/-- The robot id printed by operator<< (sen.robot->id(); the robot link is a
precondition of the dump, a missing link is rendered as id 0). -/
def robotIdOf (sen : SensorAbstract) : Nat :=
  match sen.robot with
  | some r => r.id
  | none => 0

/-- The fields printed by operator<< for SensorAbstract, in print order. -/
inductive DumpItem where
  | header (categ : String) (id : Nat)
  | nm (s : String)
  | ty (s : String)
  | poseItem (g : Gaussian)
  | robotId (n : Nat)
  | iaItem (ia : List Nat)
deriving DecidableEq

/-- operator<< for SensorAbstract (sensorAbstract.cpp lines 34-44): category
and id, the name when non-empty, the type, the pose, the parent robot id, and
the global-pose index set when the pose storage is REMOTE. -/
def sensorDump (sen : SensorAbstract) : List DumpItem :=
  [DumpItem.header sen.categoryName sen.id]
    ++ (if sen.name.length > 0 then [DumpItem.nm sen.name] else [])
    ++ [DumpItem.ty sen.type, DumpItem.poseItem sen.pose, DumpItem.robotId (robotIdOf sen)]
    ++ (if sen.pose.storage = Storage.REMOTE then [DumpItem.iaItem sen.ia_globalPose] else [])

/-- Well-formedness of the observation table: keys are duplicate-free and
every stored observation is keyed by its own id. -/
def obsWF (l : List (Nat × ObservationAbstract)) : Prop :=
  (l.map Prod.fst).Nodup ∧ ∀ p ∈ l, p.2.id = p.1

theorem mapInsert_lookup {α : Type} (l : List (Nat × α)) (k : Nat) (v : α) :
    mapLookup (mapInsert l k v) k = some v := by
  induction l with
  | nil => simp [mapInsert, mapLookup]
  | cons q t ih =>
    obtain ⟨k', v'⟩ := q
    by_cases h : k' = k
    · simp [mapInsert, mapLookup, h]
    · simp [mapInsert, mapLookup, h, ih]

theorem mapInsert_mem {α : Type} {l : List (Nat × α)} {k : Nat} {v : α} {p : Nat × α}
    (hp : p ∈ mapInsert l k v) : p = (k, v) ∨ p ∈ l := by
  induction l with
  | nil => simpa [mapInsert] using hp
  | cons q t ih =>
    obtain ⟨k', v'⟩ := q
    by_cases h : k' = k
    · simp only [mapInsert, if_pos h, List.mem_cons] at hp
      rcases hp with h1 | h1
      · exact Or.inl h1
      · exact Or.inr (List.mem_cons_of_mem _ h1)
    · simp only [mapInsert, if_neg h, List.mem_cons] at hp
      rcases hp with h1 | h1
      · exact Or.inr (by simp [h1])
      · rcases ih h1 with h2 | h2
        · exact Or.inl h2
        · exact Or.inr (List.mem_cons_of_mem _ h2)

theorem mapInsert_keys {α : Type} {l : List (Nat × α)} {k a : Nat} {v : α}
    (h : a ∈ (mapInsert l k v).map Prod.fst) : a = k ∨ a ∈ l.map Prod.fst := by
  rcases List.mem_map.mp h with ⟨p, hp, hpa⟩
  rcases mapInsert_mem hp with h1 | h1
  · left
    rw [← hpa, h1]
  · right
    rw [← hpa]
    exact List.mem_map_of_mem _ h1

theorem mapInsert_keysNodup {α : Type} {l : List (Nat × α)} (k : Nat) (v : α)
    (h : (l.map Prod.fst).Nodup) : ((mapInsert l k v).map Prod.fst).Nodup := by
  induction l with
  | nil => simp [mapInsert]
  | cons q t ih =>
    obtain ⟨k', v'⟩ := q
    rw [List.map_cons, List.nodup_cons] at h
    by_cases hk : k' = k
    · have he : mapInsert ((k', v') :: t) k v = (k, v) :: t := by
        simp [mapInsert, hk]
      rw [he, List.map_cons, List.nodup_cons]
      exact ⟨by rw [← hk]; exact h.1, h.2⟩
    · have he : mapInsert ((k', v') :: t) k v = (k', v') :: mapInsert t k v := by
        simp [mapInsert, hk]
      have hnm : k' ∉ (mapInsert t k v).map Prod.fst := by
        intro hmem
        rcases mapInsert_keys hmem with h2 | h2
        · exact hk h2
        · exact h.1 h2
      rw [he, List.map_cons, List.nodup_cons]
      exact ⟨hnm, ih h.2⟩

theorem mapInsert_length_le {α : Type} (l : List (Nat × α)) (k : Nat) (v : α) :
    (mapInsert l k v).length ≤ l.length + 1 := by
  induction l with
  | nil => simp [mapInsert]
  | cons q t ih =>
    obtain ⟨k', v'⟩ := q
    by_cases h : k' = k
    · simp [mapInsert, h]
    · simp only [mapInsert, if_neg h, List.length_cons]
      omega

theorem mapInsert_length_mem {α : Type} (l : List (Nat × α)) (k : Nat) (v : α)
    (h : k ∈ l.map Prod.fst) : (mapInsert l k v).length = l.length := by
  induction l with
  | nil => simp at h
  | cons q t ih =>
    obtain ⟨k', v'⟩ := q
    by_cases hk : k' = k
    · simp [mapInsert, hk]
    · have h' : k ∈ t.map Prod.fst := by
        rw [List.map_cons, List.mem_cons] at h
        rcases h with h | h
        · exact absurd h.symm hk
        · exact h
      simp [mapInsert, hk, ih h']

theorem mapLookup_ne_none_mem {α : Type} {l : List (Nat × α)} {k : Nat}
    (h : mapLookup l k ≠ none) : k ∈ l.map Prod.fst := by
  induction l with
  | nil => simp [mapLookup] at h
  | cons q t ih =>
    obtain ⟨k', v'⟩ := q
    by_cases hk : k' = k
    · simp [hk]
    · rw [List.map_cons, List.mem_cons]
      simp only [mapLookup, if_neg hk] at h
      exact Or.inr (ih h)

theorem linkToObservation_WF (sen : SensorAbstract) (o : ObservationAbstract)
    (h : obsWF sen.observations) : obsWF (sen.linkToObservation o).observations := by
  constructor
  · exact mapInsert_keysNodup _ _ h.1
  · intro p hp
    rcases mapInsert_mem hp with h1 | h1
    · rw [h1]
    · exact h.2 p h1

theorem foldl_link_WF (os : List ObservationAbstract) :
    ∀ sen : SensorAbstract, obsWF sen.observations →
      obsWF ((os.foldl SensorAbstract.linkToObservation sen).observations) := by
  induction os with
  | nil => intro sen h; simpa using h
  | cons o t ih => intro sen h; exact ih _ (linkToObservation_WF sen o h)

/-- The landmark object produced by one successful discovery on map m. -/
def newLmkOf (m : MapAbstract) : Landmark :=
  { id := m.lmkIdCounter + 1,
    ia := ia_range m.used LandmarkAnchoredHomogeneousPoint.size,
    linkedMap := true }

theorem newLandmark_eq (m : MapAbstract) :
    SensorAbstract.newLandmark m =
      (newLmkOf m,
       { maxSize := m.maxSize,
         used := m.used + LandmarkAnchoredHomogeneousPoint.size,
         lmkIdCounter := m.lmkIdCounter + 1,
         landmarks := mapInsert m.landmarks (m.lmkIdCounter + 1) (newLmkOf m) }) := rfl

theorem discoverNewLmks_true (sen : SensorAbstract) (m : MapAbstract)
    (h : MapAbstract.unusedStates m LandmarkAnchoredHomogeneousPoint.size = true) :
    SensorAbstract.discoverNewLmks sen m =
      { sen := { sen with observations :=
                   mapInsert sen.observations (m.lmkIdCounter + 1) { id := m.lmkIdCounter + 1 } },
        slamMap := { maxSize := m.maxSize,
                     used := m.used + LandmarkAnchoredHomogeneousPoint.size,
                     lmkIdCounter := m.lmkIdCounter + 1,
                     landmarks := mapInsert m.landmarks (m.lmkIdCounter + 1) (newLmkOf m) },
        newLmk := some (newLmkOf m),
        events := [Event.addLmk (m.lmkIdCounter + 1)] } := by
  simp [SensorAbstract.discoverNewLmks, h, SensorAbstract.newLandmark,
        MapAbstract.addObservations, SensorAbstract.linkToObservation,
        MapAbstract.linkToLandmark, MapAbstract.getId,
        LandmarkAnchoredHomogeneousPoint.new, newLmkOf]

theorem discoverNewLmks_false (sen : SensorAbstract) (m : MapAbstract)
    (h : MapAbstract.unusedStates m LandmarkAnchoredHomogeneousPoint.size = false) :
    SensorAbstract.discoverNewLmks sen m =
      { sen := sen, slamMap := m, newLmk := none, events := [] } := by
  simp [SensorAbstract.discoverNewLmks, h]

theorem processRaw_parts (sen : SensorAbstract) (m : MapAbstract) :
    (SensorAbstract.processRaw sen m).sen = (SensorAbstract.discoverNewLmks sen m).sen
  ∧ (SensorAbstract.processRaw sen m).slamMap = (SensorAbstract.discoverNewLmks sen m).slamMap
  ∧ (SensorAbstract.processRaw sen m).newLmk = (SensorAbstract.discoverNewLmks sen m).newLmk
  ∧ (SensorAbstract.processRaw sen m).events
      = SensorAbstract.observeKnownLmks sen ++ (SensorAbstract.discoverNewLmks sen m).events :=
  ⟨rfl, rfl, rfl, rfl⟩

/-- Concrete map with too little free arena space for one landmark (5 of 10
cells free is less than the 7 a landmark needs). -/
def mapNoRoom : MapAbstract :=
  { maxSize := 10, used := 5, lmkIdCounter := 0, landmarks := [] }

/-- Concrete map with enough free arena space for one landmark. -/
def mapRoom : MapAbstract :=
  { maxSize := 20, used := 5, lmkIdCounter := 2, landmarks := [] }

/-- Claim C3: in a processRaw cycle, when the map's unusedStates query for the
landmark parametrization's size is false no landmark is created and the cycle
completes leaving sensor and map unchanged; when it is true exactly one
landmark is instantiated with its slice reserved from the arena; and in no
cycle more than one landmark is created. -/
theorem C3_discovery_budget (sen : SensorAbstract) (m : MapAbstract) :
    (MapAbstract.unusedStates m LandmarkAnchoredHomogeneousPoint.size = false →
        (SensorAbstract.processRaw sen m).newLmk = none
      ∧ (SensorAbstract.processRaw sen m).slamMap = m
      ∧ (SensorAbstract.processRaw sen m).sen = sen)
  ∧ (MapAbstract.unusedStates m LandmarkAnchoredHomogeneousPoint.size = true →
      ∃ l, (SensorAbstract.processRaw sen m).newLmk = some l
        ∧ l.ia = ia_range m.used LandmarkAnchoredHomogeneousPoint.size
        ∧ (SensorAbstract.processRaw sen m).slamMap.used
            = m.used + LandmarkAnchoredHomogeneousPoint.size)
  ∧ (SensorAbstract.processRaw sen m).newLmk.toList.length ≤ 1
  ∧ (SensorAbstract.processRaw sen m).slamMap.landmarks.length ≤ m.landmarks.length + 1 := by
  obtain ⟨hs, hm, hn, he⟩ := processRaw_parts sen m
  cases hb : MapAbstract.unusedStates m LandmarkAnchoredHomogeneousPoint.size with
  | true =>
    rw [discoverNewLmks_true sen m hb] at hs hm hn
    refine ⟨?_, ?_, ?_, ?_⟩
    · intro hf; simp at hf
    · intro _
      exact ⟨newLmkOf m, by rw [hn], rfl, by rw [hm]⟩
    · rw [hn]; simp
    · rw [hm]; exact mapInsert_length_le _ _ _
  | false =>
    rw [discoverNewLmks_false sen m hb] at hs hm hn
    refine ⟨fun _ => ⟨by rw [hn], by rw [hm], by rw [hs]⟩, ?_, ?_, ?_⟩
    · intro ht; simp at ht
    · rw [hn]; simp
    · rw [hm]; exact Nat.le_succ _

/-- Witness for C3: on a concrete map with 5 free cells nothing is created,
on a concrete map with 15 free cells exactly one landmark with the next
7-cell slice is created. -/
theorem C3_discovery_budget_witness :
    (SensorAbstract.processRaw SensorAbstract.mkEmpty mapNoRoom).newLmk = none
  ∧ ∃ l, (SensorAbstract.processRaw SensorAbstract.mkEmpty mapRoom).newLmk = some l
      ∧ l.ia = ia_range mapRoom.used LandmarkAnchoredHomogeneousPoint.size
      ∧ (SensorAbstract.processRaw SensorAbstract.mkEmpty mapRoom).slamMap.used
          = mapRoom.used + LandmarkAnchoredHomogeneousPoint.size :=
  ⟨((C3_discovery_budget SensorAbstract.mkEmpty mapNoRoom).1 (by decide)).1,
   (C3_discovery_budget SensorAbstract.mkEmpty mapRoom).2.1 (by decide)⟩

/-- Claim C5: a landmark created during discovery gets the next identifier
from the map's landmark id pool, is registered in the map's id-to-landmark
table, is linked with the map, and the sensor's observation table is linked
under the same landmark id. -/
theorem C5_newLandmark_registration (sen : SensorAbstract) (m : MapAbstract)
    (h : MapAbstract.unusedStates m LandmarkAnchoredHomogeneousPoint.size = true) :
    ∃ l, (SensorAbstract.processRaw sen m).newLmk = some l
      ∧ l.id = m.lmkIdCounter + 1
      ∧ (SensorAbstract.processRaw sen m).slamMap.lmkIdCounter = m.lmkIdCounter + 1
      ∧ mapLookup (SensorAbstract.processRaw sen m).slamMap.landmarks l.id = some l
      ∧ l.linkedMap = true
      ∧ mapLookup (SensorAbstract.processRaw sen m).sen.observations l.id
          = some { id := l.id } := by
  obtain ⟨hs, hm, hn, he⟩ := processRaw_parts sen m
  rw [discoverNewLmks_true sen m h] at hs hm hn
  refine ⟨newLmkOf m, by rw [hn], rfl, by rw [hm], ?_, rfl, ?_⟩
  · rw [hm]; exact mapInsert_lookup _ _ _
  · rw [hs]; exact mapInsert_lookup _ _ _

/-- Witness for C5 on a concrete map whose id pool stands at 2: the created
landmark gets id 3 and is registered everywhere under id 3. -/
theorem C5_newLandmark_registration_witness :
    ∃ l, (SensorAbstract.processRaw SensorAbstract.mkEmpty mapRoom).newLmk = some l
      ∧ l.id = mapRoom.lmkIdCounter + 1
      ∧ (SensorAbstract.processRaw SensorAbstract.mkEmpty mapRoom).slamMap.lmkIdCounter
          = mapRoom.lmkIdCounter + 1
      ∧ mapLookup (SensorAbstract.processRaw SensorAbstract.mkEmpty mapRoom).slamMap.landmarks l.id
          = some l
      ∧ l.linkedMap = true
      ∧ mapLookup (SensorAbstract.processRaw SensorAbstract.mkEmpty mapRoom).sen.observations l.id
          = some { id := l.id } :=
  C5_newLandmark_registration SensorAbstract.mkEmpty mapRoom (by decide)

/-- Claim C6: every processRaw cycle performs ObserveKnown before
DiscoverNew: its event trace is the observation-revisiting events for the
whole observation table followed by the (possible) landmark-creation
events. -/
theorem C6_phase_order (sen : SensorAbstract) (m : MapAbstract) :
    (SensorAbstract.processRaw sen m).events
      = SensorAbstract.observeKnownLmks sen ++ (SensorAbstract.discoverNewLmks sen m).events
  ∧ SensorAbstract.observeKnownLmks sen
      = sen.observations.map (fun p => Event.explore p.2.id)
  ∧ (∀ e ∈ SensorAbstract.observeKnownLmks sen, ∃ i, e = Event.explore i)
  ∧ (∀ e ∈ (SensorAbstract.discoverNewLmks sen m).events, ∃ i, e = Event.addLmk i) := by
  refine ⟨rfl, rfl, ?_, ?_⟩
  · intro e he
    rcases List.mem_map.mp he with ⟨p, _, hpe⟩
    exact ⟨p.2.id, hpe.symm⟩
  · intro e he
    cases hb : MapAbstract.unusedStates m LandmarkAnchoredHomogeneousPoint.size with
    | true =>
      rw [discoverNewLmks_true sen m hb] at he
      simp at he
      exact ⟨m.lmkIdCounter + 1, he⟩
    | false =>
      rw [discoverNewLmks_false sen m hb] at he
      simp at he

/-- Witness for C6 on a concrete sensor holding one observation and a map
with room: the trace is the exploring event followed by the creation
event. -/
theorem C6_phase_order_witness :
    (SensorAbstract.processRaw (SensorAbstract.mkEmpty.linkToObservation { id := 9 }) mapRoom).events
      = SensorAbstract.observeKnownLmks (SensorAbstract.mkEmpty.linkToObservation { id := 9 })
        ++ (SensorAbstract.discoverNewLmks
              (SensorAbstract.mkEmpty.linkToObservation { id := 9 }) mapRoom).events :=
  (C6_phase_order (SensorAbstract.mkEmpty.linkToObservation { id := 9 }) mapRoom).1

/-- Claim C9: linkToObservation stores the observation under its own id,
replaces instead of duplicating, and any sequence of linkToObservation calls
keeps the table holding at most one observation per id, each keyed by its own
id. -/
theorem C9_linkToObservation_table (sen : SensorAbstract) (o : ObservationAbstract)
    (h : obsWF sen.observations) :
    mapLookup (sen.linkToObservation o).observations o.id = some o
  ∧ obsWF (sen.linkToObservation o).observations
  ∧ (mapLookup sen.observations o.id ≠ none →
      (sen.linkToObservation o).observations.length = sen.observations.length)
  ∧ ∀ os : List ObservationAbstract,
      obsWF ((os.foldl SensorAbstract.linkToObservation sen).observations) := by
  refine ⟨mapInsert_lookup _ _ _, linkToObservation_WF sen o h, ?_,
          fun os => foldl_link_WF os sen h⟩
  intro hne
  exact mapInsert_length_mem _ _ _ (mapLookup_ne_none_mem hne)

/-- Witness for C9: linking observation 5 twice to the empty-table sensor
keeps one entry, stored under key 5. -/
theorem C9_linkToObservation_table_witness :
    mapLookup ((SensorAbstract.mkEmpty.linkToObservation { id := 5 }).linkToObservation
        { id := 5 }).observations 5 = some { id := 5 }
  ∧ ((SensorAbstract.mkEmpty.linkToObservation { id := 5 }).linkToObservation
        { id := 5 }).observations.length
      = (SensorAbstract.mkEmpty.linkToObservation { id := 5 }).observations.length
  ∧ obsWF ((SensorAbstract.mkEmpty.linkToObservation { id := 5 }).linkToObservation
        { id := 5 }).observations := by
  have h0 : obsWF (SensorAbstract.mkEmpty.linkToObservation { id := 5 }).observations := by
    constructor
    · simp [SensorAbstract.mkEmpty, SensorAbstract.linkToObservation, mapInsert]
    · intro p hp
      simp [SensorAbstract.mkEmpty, SensorAbstract.linkToObservation, mapInsert] at hp
      rw [hp]
  have h := C9_linkToObservation_table (SensorAbstract.mkEmpty.linkToObservation { id := 5 })
    { id := 5 } h0
  exact ⟨h.1, h.2.2.1 (by decide), h.2.1⟩

/-- Concrete robot whose pose is the remote view of arena cells 7..13 (a
robot whose pose slice does not start at cell 0). -/
def rob0 : RobotAbstract := { id := 3, pose := Gaussian.remote (ia_range 7 7) }

/-- Concrete map whose first 14 arena cells are already reserved. -/
def map14 : MapAbstract := { maxSize := 40, used := 14, lmkIdCounter := 0, landmarks := [] }

/-- Concrete sensor with a LOCAL pose (zero mean). -/
def senLoc : SensorAbstract := SensorAbstract.mkMean (List.replicate 7 0)

/-- Concrete sensor with a REMOTE pose, built by the selectable constructor
with inFilter true on map14 (its pose slice is cells 14..20). -/
def senRem : SensorAbstract := (SensorAbstract.mkSelectable rob0 map14 true).1

/-- Claim C1 (evaluation of the selectable constructor): with inFilter true
the sensor reserves a 7-cell slice and ia_globalPose is the union of the
robot's pose indices and the sensor's own slice, as the claim states; with
inFilter false the source initializes ia_globalPose from the LOCAL pose's own
index array (the identity view 0..6 of its local storage), which differs from
the robot's pose index set 7..13 that the claim, the spec and the header
documentation (sensorAbstract.hpp line 78) prescribe. -/
theorem C1_selectable_ctor_eval :
    (SensorAbstract.mkSelectable rob0 map14 true).1.ia_globalPose
        = ia_union rob0.pose.ia (ia_range 14 7)
  ∧ (SensorAbstract.mkSelectable rob0 map14 true).1.stateSize = 7
  ∧ (SensorAbstract.mkSelectable rob0 map14 true).1.stateIa = ia_range 14 7
  ∧ (SensorAbstract.mkSelectable rob0 map14 true).2.used = map14.used + 7
  ∧ (SensorAbstract.mkSelectable rob0 map14 false).1.pose.storage = Storage.LOCAL
  ∧ (SensorAbstract.mkSelectable rob0 map14 false).1.stateSize = 0
  ∧ (SensorAbstract.mkSelectable rob0 map14 false).1.ia_globalPose = ia_range 0 7
  ∧ rob0.pose.ia = ia_range 7 7
  ∧ (SensorAbstract.mkSelectable rob0 map14 false).1.ia_globalPose ≠ rob0.pose.ia := by
  decide

/-- Claim C2: the Jacobian output of globalPose depends only on the sensor
pose's storage mode: LOCAL gives the single 7-by-7 Jacobian with respect to
the robot pose; REMOTE gives a 7-by-14 block whose columns 0-6 hold the
Jacobian with respect to the robot pose and whose columns 7-13 hold the
Jacobian with respect to the sensor pose. -/
theorem C2_jacobian_by_storage (sen : SensorAbstract) (rob : RobotAbstract) (arena : List ℚ) :
    (sen.pose.storage = Storage.LOCAL →
      (sen.globalPose rob arena).2
          = JacOut.lo (composeFrames_dglobal (rob.pose.x arena) (sen.pose.x arena))
      ∧ (composeFrames_dglobal (rob.pose.x arena) (sen.pose.x arena)).length = 7
      ∧ (composeFrames_dglobal (rob.pose.x arena) (sen.pose.x arena)).map List.length
          = List.replicate 7 7)
  ∧ (sen.pose.storage = Storage.REMOTE →
      ∃ M, (sen.globalPose rob arena).2 = JacOut.re M
        ∧ M.length = 7
        ∧ M.map List.length = List.replicate 7 14
        ∧ takeCols M 0 7 = composeFrames_dglobal (rob.pose.x arena) (sen.pose.x arena)
        ∧ takeCols M 7 14 = composeFrames_dlocal (rob.pose.x arena) (sen.pose.x arena)) := by
  constructor
  · intro h
    unfold SensorAbstract.globalPose
    rw [h]
    exact ⟨rfl, rfl, rfl⟩
  · intro h
    unfold SensorAbstract.globalPose
    rw [h]
    exact ⟨_, rfl, rfl, rfl, rfl, rfl⟩

/-- Witness for C2 at concrete sensors and an empty arena. -/
theorem C2_jacobian_by_storage_witness :
    (senLoc.globalPose rob0 []).2
        = JacOut.lo (composeFrames_dglobal (rob0.pose.x []) (senLoc.pose.x []))
  ∧ ∃ M, (senRem.globalPose rob0 []).2 = JacOut.re M
      ∧ takeCols M 0 7 = composeFrames_dglobal (rob0.pose.x []) (senRem.pose.x [])
      ∧ takeCols M 7 14 = composeFrames_dlocal (rob0.pose.x []) (senRem.pose.x []) := by
  have h1 := (C2_jacobian_by_storage senLoc rob0 []).1 rfl
  have h2 := (C2_jacobian_by_storage senRem rob0 []).2 rfl
  rcases h2 with ⟨M, hM, _, _, h4, h5⟩
  exact ⟨h1.1, M, hM, h4, h5⟩

/-- Claim C4: for a REMOTE-pose sensor the left 7 columns of the 7-by-14
Jacobian equal the 7-by-7 Jacobian the LOCAL branch would produce for the
same robot pose, and the returned global pose vector is the same in both
modes when the pose means agree. -/
theorem C4_remote_refines_local (senL senR : SensorAbstract) (rob : RobotAbstract)
    (arena : List ℚ)
    (hL : senL.pose.storage = Storage.LOCAL) (hR : senR.pose.storage = Storage.REMOTE)
    (hx : senL.pose.x arena = senR.pose.x arena) :
    (senL.globalPose rob arena).1 = (senR.globalPose rob arena).1
  ∧ ∃ A M, (senL.globalPose rob arena).2 = JacOut.lo A
      ∧ (senR.globalPose rob arena).2 = JacOut.re M
      ∧ takeCols M 0 7 = A := by
  unfold SensorAbstract.globalPose
  rw [hL, hR, hx]
  exact ⟨rfl, _, _, rfl, rfl, rfl⟩

/-- Witness for C4: a LOCAL sensor with zero mean pose and a REMOTE sensor
reading zeros out of the empty arena agree as the claim states. -/
theorem C4_remote_refines_local_witness :
    (senLoc.globalPose rob0 []).1 = (senRem.globalPose rob0 []).1
  ∧ ∃ A M, (senLoc.globalPose rob0 []).2 = JacOut.lo A
      ∧ (senRem.globalPose rob0 []).2 = JacOut.re M
      ∧ takeCols M 0 7 = A :=
  C4_remote_refines_local senLoc senRem rob0 [] rfl rfl (by decide)

/-- Claim C7: globalPose mutates no estimation state: as a state transformer
it returns the snapshot unchanged, its outputs are a function of the
snapshot, and a repeated call on the returned state yields the same
outputs. -/
theorem C7_globalPose_pure (st : SlamState) :
    (globalPoseS st).1 = st
  ∧ (globalPoseS st).2 = SensorAbstract.globalPose st.sen st.rob st.arena
  ∧ (globalPoseS (globalPoseS st).1).2 = (globalPoseS st).2 :=
  ⟨rfl, rfl, rfl⟩

/-- Claim C8: the diagnostic dump always contains the sensor identity
(category and id), its pose and the parent robot id, and contains the
global-pose index set exactly when the pose storage is REMOTE. -/
theorem C8_dump_contents (sen : SensorAbstract) :
    DumpItem.header sen.categoryName sen.id ∈ sensorDump sen
  ∧ DumpItem.poseItem sen.pose ∈ sensorDump sen
  ∧ DumpItem.robotId (robotIdOf sen) ∈ sensorDump sen
  ∧ ((∃ ia, DumpItem.iaItem ia ∈ sensorDump sen) ↔ sen.pose.storage = Storage.REMOTE)
  ∧ (sen.pose.storage = Storage.REMOTE →
      DumpItem.iaItem sen.ia_globalPose ∈ sensorDump sen) := by
  by_cases hn : sen.name.length > 0 <;>
    cases hs : sen.pose.storage <;>
      simp [sensorDump, hn, hs]

/-- Claim C10: the three local-pose constructors reserve no arena cells and
leave ia_globalPose empty. -/
theorem C10_local_ctors_empty_ia (p : List ℚ) (g : Gaussian) :
    SensorAbstract.mkEmpty.stateSize = 0
  ∧ SensorAbstract.mkEmpty.stateIa = []
  ∧ SensorAbstract.mkEmpty.ia_globalPose = []
  ∧ (SensorAbstract.mkMean p).stateSize = 0
  ∧ (SensorAbstract.mkMean p).stateIa = []
  ∧ (SensorAbstract.mkMean p).ia_globalPose = []
  ∧ (SensorAbstract.mkGaussian g).stateSize = 0
  ∧ (SensorAbstract.mkGaussian g).stateIa = []
  ∧ (SensorAbstract.mkGaussian g).ia_globalPose = [] :=
  ⟨rfl, rfl, rfl, rfl, rfl, rfl, rfl, rfl, rfl⟩

/-- Witness for C8 at a concrete REMOTE-pose sensor: pose and robot id are in
the dump and the index-set item is present. -/
theorem C8_dump_contents_witness :
    DumpItem.poseItem senRem.pose ∈ sensorDump senRem
  ∧ DumpItem.robotId (robotIdOf senRem) ∈ sensorDump senRem
  ∧ DumpItem.iaItem senRem.ia_globalPose ∈ sensorDump senRem := by
  have h := C8_dump_contents senRem
  exact ⟨h.2.1, h.2.2.1, h.2.2.2.2 rfl⟩
